import Mathlib

/-!
Shallow embedding of the client-side media capture and recording subsystem
of the upload form component (source file `src/unnamed/part_000`, the
`UploadForm` React component).  The component's media-related React state
and refs become fields of `SessionState`; each capture operation
(`startCamera`, `capturePhoto`, `stopCamera`, `startAudioRecording`,
`getSupportedVideoMimeType`, `startVideoRecording`, `stopRecording`, the
one-second interval tick, and the recorder `onstop` callbacks) becomes a
pure function from an environment (the outcomes of the asynchronous
browser calls: `getUserMedia`, `MediaRecorder` construction, canvas
readiness) and a state to a new state together with an ordered list of
observable effects (stream acquisitions, track stops, error toasts,
recorder/interval starts).  Resource accounting (which device streams are
open) is computed from the effect trace.
-/

/-- Kind of a hardware track inside a device stream. -/
inductive TrackKind where
  | video
  | audio
  deriving DecidableEq, Repr

/-- One hardware input track, identified by a numeric id. -/
structure Track where
  tid : Nat
  kind : TrackKind
  deriving DecidableEq, Repr

/-- A device stream as returned by `navigator.mediaDevices.getUserMedia`:
an id plus its list of tracks (`stream.getTracks()`). -/
structure MediaStream where
  sid : Nat
  tracks : List Track
  deriving DecidableEq, Repr

/-- The video tracks of a stream: `stream.getVideoTracks()`. -/
def MediaStream.videoTracks (st : MediaStream) : List Track :=
  st.tracks.filter (fun t => t.kind = TrackKind.video)

/-- A produced media file (`new File([blob], name, { type })`): suggested
name, mime type and byte content. -/
structure MediaFile where
  name : String
  mime : String
  bytes : List Nat
  deriving DecidableEq, Repr

/-- One encoder output fragment (a `Blob` delivered by `ondataavailable`):
its bytes and its reported mime type. -/
structure Chunk where
  bytes : List Nat
  ctype : String
  deriving DecidableEq, Repr

/-- Classified user-visible error categories, one per distinct error toast
branch of the source. -/
inductive ErrKind where
  /-- `startCamera` catch, `NotAllowedError` branch. -/
  | permissionDenied
  /-- `startCamera` catch, `NotFoundError` branch. -/
  | deviceNotFound
  /-- `startCamera` catch, `NotReadableError` branch. -/
  | deviceBusy
  /-- `startCamera` throws `Camera API not supported` when
  `navigator.mediaDevices.getUserMedia` is absent (default catch branch). -/
  | apiUnsupported
  /-- `startVideoRecording`: acquisition succeeded but the stream has no
  video track (`No video track available`); the spec's `DeviceNotFound`
  no-video-track variant. -/
  | noVideoTrack
  /-- `startAudioRecording` catch (`Microphone Error`). -/
  | micError
  /-- `startVideoRecording` outer catch (`Camera/Microphone Error`). -/
  | camMicError
  /-- `capturePhoto`: video `readyState` below `HAVE_ENOUGH_DATA`
  (`Camera not ready`). -/
  | notReady
  /-- `startCamera` catch, default branch with an unrecognized error. -/
  | unknown
  deriving DecidableEq, Repr

/-- Outcome classification of a rejected `getUserMedia` promise, by
`error.name`. -/
inductive AcqError where
  | notAllowed
  | notFound
  | notReadable
  | other (msg : String)
  deriving DecidableEq, Repr

/-- Mapping of `startCamera`'s catch switch on `error.name` to a
classified error. -/
def classifyCameraError : AcqError → ErrKind
  | AcqError.notAllowed => ErrKind.permissionDenied
  | AcqError.notFound => ErrKind.deviceNotFound
  | AcqError.notReadable => ErrKind.deviceBusy
  | AcqError.other _ => ErrKind.unknown

/-- Observable effects emitted by the capture operations, in program
order: device-stream acquisitions, `track.stop()` calls, recorder and
interval lifecycle, and error toasts. -/
inductive Effect where
  | acquired (st : MediaStream)
  | trackStopped (tid : Nat)
  | recorderStarted
  | recorderStopSignalled
  | intervalStarted
  | intervalCleared
  | errorToast (e : ErrKind)
  deriving DecidableEq, Repr

/-- Track ids stopped somewhere in a trace, in order. -/
def stoppedIds (trace : List Effect) : List Nat :=
  trace.filterMap fun e =>
    match e with
    | Effect.trackStopped i => some i
    | _ => none

/-- Streams acquired somewhere in a trace, in order. -/
def acquiredIn (trace : List Effect) : List MediaStream :=
  trace.filterMap fun e =>
    match e with
    | Effect.acquired st => some st
    | _ => none

/-- A stream is still open after a trace when at least one of its tracks
was never stopped. -/
def streamOpen (trace : List Effect) (st : MediaStream) : Bool :=
  st.tracks.any fun t => !((stoppedIds trace).contains t.tid)

/-- Number of acquired streams still open at the end of a trace. -/
def openStreamCount (trace : List Effect) : Nat :=
  (acquiredIn trace).countP (streamOpen trace)

/-- Whether an effect is an error toast. -/
def Effect.isErrorToast : Effect → Bool
  | Effect.errorToast _ => true
  | _ => false

/-- Whether an effect is a `track.stop()` call. -/
def Effect.isTrackStopped : Effect → Bool
  | Effect.trackStopped _ => true
  | _ => false

/-- The `track.stop()` effects occurring strictly after the first error
toast of a trace (empty when teardown fully precedes error reporting). -/
def stopsAfterReport (trace : List Effect) : List Effect :=
  ((trace.dropWhile fun e => !e.isErrorToast).drop 1).filter
    fun e => e.isTrackStopped

/-- The media-capture React state and refs of the `UploadForm` component:
`file`, `isRecording`, `mediaStream`, `recordedChunks`, `recordingTime`,
`showCamera`, `capturedPhoto`, plus the `mediaRecorderRef` and
`recordingIntervalRef` refs and the hidden canvas element's dimensions. -/
structure SessionState where
  file : Option MediaFile
  isRecording : Bool
  mediaStream : Option MediaStream
  recordedChunks : List Chunk
  recordingTime : Nat
  showCamera : Bool
  capturedPhoto : Option String
  /-- `mediaRecorderRef.current`: the stream the recorder was built on and
  the `mimeType` option it was constructed with (`none` = no options). -/
  mediaRecorder : Option (MediaStream × Option String)
  /-- Whether `recordingIntervalRef.current` holds a live interval. -/
  recordingInterval : Bool
  canvasWidth : Nat
  canvasHeight : Nat
  deriving DecidableEq, Repr

/-- Initial component state: all media state empty.  The canvas dimensions
start at 0 here; they are never read before `capturePhoto` assigns them. -/
def initState : SessionState :=
  { file := none
    isRecording := false
    mediaStream := none
    recordedChunks := []
    recordingTime := 0
    showCamera := false
    capturedPhoto := none
    mediaRecorder := none
    recordingInterval := false
    canvasWidth := 0
    canvasHeight := 0 }

/-- Photo artifact built in `capturePhoto`'s `toBlob` callback:
`new File([blob], ` photo-<Date.now()>.jpg `, { type: ` image/jpeg ` })`. -/
def photoArtifact (frame : List Nat) (now : Nat) : MediaFile :=
  { name := "photo-" ++ toString now ++ ".jpg"
    mime := "image/jpeg"
    bytes := frame }

/-- Body of the audio `ondataavailable` handler: push the fragment only
when `event.data.size > 0`. -/
def pushIfNonEmpty (chunks : List (List Nat)) (d : List Nat) :
    List (List Nat) :=
  if 0 < d.length then chunks ++ [d] else chunks

/-- The local `chunks` array of `startAudioRecording` after a sequence of
data events has fired. -/
def audioChunks (events : List (List Nat)) : List (List Nat) :=
  events.foldl pushIfNonEmpty []

/-- Audio artifact built in the audio recorder's `onstop` handler:
`new Blob(chunks, { type: ` audio/webm ` })` wrapped as
`new File([blob], ` recorded-audio.webm `, { type: ` audio/webm ` })`. -/
def audioArtifact (events : List (List Nat)) : MediaFile :=
  { name := "recorded-audio.webm"
    mime := "audio/webm"
    bytes := (audioChunks events).flatten }

/-- Body of the video `ondataavailable` handler: push the fragment only
when `event.data && event.data.size > 0` (the data is always present in
this model, so only the size test remains). -/
def pushVideoChunk (chunks : List Chunk) (c : Chunk) : List Chunk :=
  if 0 < c.bytes.length then chunks ++ [c] else chunks

/-- The local `chunks` array of `startVideoRecording` after a sequence of
data events has fired. -/
def videoChunks (events : List Chunk) : List Chunk :=
  events.foldl pushVideoChunk []

/-- The blob type chosen in the video `onstop` handler:
`chunks[0]?.type || ` video/webm ` ` (missing first chunk, or a first
chunk with an empty falsy type string, falls back to `video/webm`). -/
def videoBlobType (chunks : List Chunk) : String :=
  match chunks with
  | [] => "video/webm"
  | c :: _ => if c.ctype = "" then "video/webm" else c.ctype

/-- Video artifact built in the video recorder's `onstop` handler:
`new File([blob], ` recorded-video-<Date.now()>.webm `, { type: blob.type })`. -/
def videoArtifact (chunks : List Chunk) (now : Nat) : MediaFile :=
  { name := "recorded-video-" ++ toString now ++ ".webm"
    mime := videoBlobType chunks
    bytes := (chunks.map Chunk.bytes).flatten }

/-- Environment of one `startCamera` call: whether
`navigator.mediaDevices.getUserMedia` exists, and the outcome of the
`getUserMedia` promise when it does. -/
structure CameraEnv where
  apiSupported : Bool
  result : Except AcqError MediaStream

/-- Environment of one `capturePhoto` call: availability of the video and
canvas refs and of the 2d context, the video element's `readyState` and
native dimensions, whether `toBlob` delivers a blob, the encoded frame
bytes, the data URL, and `Date.now()`. -/
structure PhotoEnv where
  refsAvailable : Bool
  readyState : Nat
  videoWidth : Nat
  videoHeight : Nat
  ctxAvailable : Bool
  blobOk : Bool
  frame : List Nat
  dataUrl : String
  now : Nat

/-- Environment of one `startAudioRecording` call: the `getUserMedia`
outcome and whether `new MediaRecorder(stream)` throws. -/
structure AudioEnv where
  result : Except AcqError MediaStream
  recorderCtorThrows : Bool

/-- Environment of one `startVideoRecording` call: the `getUserMedia`
outcome, the runtime's `MediaRecorder` capability surface
(existence of the constructor and of `isTypeSupported`, and the
per-candidate support answers), and whether each constructor call throws
(with a given `mimeType` option, or with no options). -/
structure VideoEnv where
  result : Except AcqError MediaStream
  hasMediaRecorder : Bool
  hasIsTypeSupported : Bool
  supported : String → Bool
  ctorWithOptionThrows : String → Bool
  ctorDefaultThrows : Bool

/-- The condition the negotiation loop tests for one candidate:
`window.MediaRecorder && window.MediaRecorder.isTypeSupported &&
window.MediaRecorder.isTypeSupported(c)`. -/
def supportedBy (env : VideoEnv) (c : String) : Bool :=
  env.hasMediaRecorder && env.hasIsTypeSupported && env.supported c

/-- The negotiation loop of `getSupportedVideoMimeType` over an arbitrary
ordered candidate list: return the first candidate the runtime supports,
else `undefined`. -/
def findSupportedMimeType (env : VideoEnv) (cs : List String) :
    Option String :=
  cs.find? (supportedBy env)

/-- The hard-coded candidate list of `getSupportedVideoMimeType`. -/
def videoCandidates : List String :=
  ["video/webm;codecs=vp9,opus", "video/webm;codecs=vp8,opus",
   "video/webm", "video/mp4"]

/-- The source's `getSupportedVideoMimeType`: the negotiation loop run on
its hard-coded candidate list. -/
def getSupportedVideoMimeType (env : VideoEnv) : Option String :=
  findSupportedMimeType env videoCandidates

/-- The `startCamera` function.  No guard inspects the current state: on a
resolved stream it overwrites `mediaStream` and shows the camera; on a
rejected promise or missing API it only toasts a classified error.  The
deferred preview attachment (`setTimeout` + `videoRef` wiring) is
presentational and not modelled. -/
def startCamera (env : CameraEnv) (s : SessionState) :
    SessionState × List Effect :=
  if !env.apiSupported then
    (s, [Effect.errorToast ErrKind.apiUnsupported])
  else
    match env.result with
    | Except.error e => (s, [Effect.errorToast (classifyCameraError e)])
    | Except.ok st =>
        ({ s with mediaStream := some st, showCamera := true },
         [Effect.acquired st])

/-- The `stopCamera` function: stop every track of the held stream, clear
the stream reference, hide the camera view. -/
def stopCamera (s : SessionState) : SessionState × List Effect :=
  match s.mediaStream with
  | some st =>
      ({ s with mediaStream := none, showCamera := false },
       st.tracks.map (fun t => Effect.trackStopped t.tid))
  | none => ({ s with showCamera := false }, [])

/-- The `HAVE_ENOUGH_DATA` ready-state constant. -/
def HAVE_ENOUGH_DATA : Nat := 4

/-- The `capturePhoto` function: bail out silently when the refs are
missing; toast `Camera not ready` and change nothing when the video's
`readyState` is below `HAVE_ENOUGH_DATA`; otherwise size the canvas to
`videoWidth || 640` by `videoHeight || 480`, draw the frame, and in the
`toBlob` callback store the photo file and data URL and run
`stopCamera`. -/
def capturePhoto (env : PhotoEnv) (s : SessionState) :
    SessionState × List Effect :=
  if !env.refsAvailable then (s, [])
  else if env.readyState ≠ HAVE_ENOUGH_DATA then
    (s, [Effect.errorToast ErrKind.notReady])
  else
    let w := if env.videoWidth = 0 then 640 else env.videoWidth
    let h := if env.videoHeight = 0 then 480 else env.videoHeight
    let s1 := { s with canvasWidth := w, canvasHeight := h }
    if !env.ctxAvailable then (s1, [])
    else if !env.blobOk then (s1, [])
    else
      stopCamera
        { s1 with
          file := some (photoArtifact env.frame env.now)
          capturedPhoto := some env.dataUrl }

/-- The `startAudioRecording` function.  On a resolved stream it first
stores the stream, then constructs the recorder; when the constructor
throws, control reaches the catch block, which only toasts `Microphone
Error` — the already-stored stream is not stopped.  On success it starts
the recorder, sets `isRecording`, zeroes `recordingTime`, and starts the
one-second interval. -/
def startAudioRecording (env : AudioEnv) (s : SessionState) :
    SessionState × List Effect :=
  match env.result with
  | Except.error _ => (s, [Effect.errorToast ErrKind.micError])
  | Except.ok st =>
      if env.recorderCtorThrows then
        ({ s with mediaStream := some st },
         [Effect.acquired st, Effect.errorToast ErrKind.micError])
      else
        ({ s with
            mediaStream := some st
            mediaRecorder := some (st, none)
            isRecording := true
            recordingTime := 0
            recordingInterval := true },
         [Effect.acquired st, Effect.recorderStarted,
          Effect.intervalStarted])

/-- Encoder construction in `startVideoRecording`:
`mimeType ? new MediaRecorder(stream, { mimeType }) : new
MediaRecorder(stream)`, with the inner catch retrying once with no
options; `none` here means even the no-options constructor threw, so the
outer catch runs. -/
def constructRecorder (env : VideoEnv) (st : MediaStream) :
    Option (MediaStream × Option String) :=
  match getSupportedVideoMimeType env with
  | some m =>
      if env.ctorWithOptionThrows m then
        if env.ctorDefaultThrows then none else some (st, none)
      else some (st, some m)
  | none =>
      if env.ctorDefaultThrows then none else some (st, none)

/-- The `startVideoRecording` function.  On a resolved stream it first
checks `getVideoTracks()`: when empty, it toasts `No video track
available`, then stops every track and returns without touching the
state.  Otherwise it stores the stream, shows the camera (the deferred
preview attachment is presentational and not modelled), constructs the
recorder with fallback, and on construction success starts recording,
zeroes the timer and starts the interval; when even the fallback
constructor throws, the outer catch only toasts `Camera/Microphone
Error`, leaving the stored stream's tracks running. -/
def startVideoRecording (env : VideoEnv) (s : SessionState) :
    SessionState × List Effect :=
  match env.result with
  | Except.error _ => (s, [Effect.errorToast ErrKind.camMicError])
  | Except.ok st =>
      if st.videoTracks.length = 0 then
        (s, Effect.acquired st :: Effect.errorToast ErrKind.noVideoTrack ::
            st.tracks.map (fun t => Effect.trackStopped t.tid))
      else
        let s1 := { s with mediaStream := some st, showCamera := true }
        match constructRecorder env st with
        | none =>
            (s1, [Effect.acquired st,
                  Effect.errorToast ErrKind.camMicError])
        | some r =>
            ({ s1 with
                mediaRecorder := some r
                isRecording := true
                recordingTime := 0
                recordingInterval := true },
             [Effect.acquired st, Effect.recorderStarted,
              Effect.intervalStarted])

/-- The `stopRecording` function: signal the recorder to stop when one
exists and `isRecording` holds, stop and clear the held stream's tracks,
clear the interval, and unconditionally set `isRecording` to `false` and
`recordingTime` to `0`.  The recorder ref itself is not cleared. -/
def stopRecording (s : SessionState) : SessionState × List Effect :=
  let sigEffs :=
    if s.mediaRecorder.isSome && s.isRecording then
      [Effect.recorderStopSignalled]
    else []
  let streamStep : SessionState × List Effect :=
    match s.mediaStream with
    | some st =>
        ({ s with mediaStream := none },
         st.tracks.map (fun t => Effect.trackStopped t.tid))
    | none => (s, ([] : List Effect))
  let s1 := streamStep.1
  let intStep :=
    if s1.recordingInterval then
      ({ s1 with recordingInterval := false }, [Effect.intervalCleared])
    else (s1, ([] : List Effect))
  let s2 := intStep.1
  ({ s2 with isRecording := false, recordingTime := 0 },
   sigEffs ++ streamStep.2 ++ intStep.2)

/-- One firing of the one-second interval callback
(`setRecordingTime(prev => prev + 1)`): it can fire only while the
interval is set. -/
def tick (s : SessionState) : SessionState :=
  if s.recordingInterval then
    { s with recordingTime := s.recordingTime + 1 }
  else s

/-- The audio recorder's `onstop` callback: store the assembled artifact
as the selected file and clear `recordedChunks`.  It can fire only for a
constructed recorder. -/
def audioStopEvent (events : List (List Nat)) (s : SessionState) :
    SessionState :=
  if s.mediaRecorder.isSome then
    { s with file := some (audioArtifact events), recordedChunks := [] }
  else s

/-- The video recorder's `onstop` callback: store the assembled artifact
as the selected file, clear `recordedChunks`, then run `stopCamera`. -/
def videoStopEvent (chunks : List Chunk) (now : Nat) (s : SessionState) :
    SessionState × List Effect :=
  if s.mediaRecorder.isSome then
    stopCamera
      { s with
        file := some (videoArtifact chunks now)
        recordedChunks := [] }
  else (s, [])

/-- One invocation of a capture operation together with its environment:
the alphabet of the session's reachable-state relation. -/
inductive Op where
  | opStartCamera (env : CameraEnv)
  | opCapturePhoto (env : PhotoEnv)
  | opStopCamera
  | opStartAudio (env : AudioEnv)
  | opStartVideo (env : VideoEnv)
  | opStopRecording
  | opTick
  | opAudioStop (events : List (List Nat))
  | opVideoStop (chunks : List Chunk) (now : Nat)

/-- Interpretation of one operation. -/
def applyOp : Op → SessionState → SessionState × List Effect
  | Op.opStartCamera env, s => startCamera env s
  | Op.opCapturePhoto env, s => capturePhoto env s
  | Op.opStopCamera, s => stopCamera s
  | Op.opStartAudio env, s => startAudioRecording env s
  | Op.opStartVideo env, s => startVideoRecording env s
  | Op.opStopRecording, s => stopRecording s
  | Op.opTick, s => (tick s, [])
  | Op.opAudioStop events, s => (audioStopEvent events s, [])
  | Op.opVideoStop chunks now, s => videoStopEvent chunks now s

/-- States reachable from the initial component state by any sequence of
operations under any environments. -/
inductive Reachable : SessionState → Prop where
  | init : Reachable initState
  | step (o : Op) {s : SessionState} :
      Reachable s → Reachable (applyOp o s).1

/-- Concrete camera stream fixture: one video track with id 11. -/
def stream1 : MediaStream := { sid := 1, tracks := [{ tid := 11, kind := TrackKind.video }] }

/-- Second concrete camera stream fixture: one video track with id 21. -/
def stream2 : MediaStream := { sid := 2, tracks := [{ tid := 21, kind := TrackKind.video }] }

/-- Concrete microphone stream fixture: one audio track with id 51 and no
video track. -/
def audioStream1 : MediaStream := { sid := 5, tracks := [{ tid := 51, kind := TrackKind.audio }] }

/-- Camera environment resolving `stream1`. -/
def camEnv1 : CameraEnv := { apiSupported := true, result := Except.ok stream1 }

/-- Camera environment resolving `stream2`. -/
def camEnv2 : CameraEnv := { apiSupported := true, result := Except.ok stream2 }

/-- A state that already holds a live camera stream: the result of one
successful `startCamera`. -/
def sHolding : SessionState := (startCamera camEnv1 initState).1

/-- Audio environment in which acquisition succeeds but the
`MediaRecorder` constructor throws. -/
def audioCtorFailEnv : AudioEnv := { result := Except.ok audioStream1, recorderCtorThrows := true }

/-- Audio environment in which acquisition and recorder construction both
succeed. -/
def audioOkEnv : AudioEnv := { result := Except.ok audioStream1, recorderCtorThrows := false }

/-- Video environment fixture for negotiation: only the last two
candidates (`video/webm`, `video/mp4`) are supported, so negotiation must
return `video/webm`, the earlier of the two. -/
def vidEnvBC : VideoEnv :=
  { result := Except.ok stream1
    hasMediaRecorder := true
    hasIsTypeSupported := true
    supported := fun c => c = "video/webm" || c = "video/mp4"
    ctorWithOptionThrows := fun _ => false
    ctorDefaultThrows := false }

/-- Video environment fixture in which no candidate is supported and the
no-options constructor succeeds: negotiation returns `none` and the
session must still reach recording with a default-configured encoder. -/
def vidEnvNone : VideoEnv :=
  { result := Except.ok stream1
    hasMediaRecorder := true
    hasIsTypeSupported := true
    supported := fun _ => false
    ctorWithOptionThrows := fun _ => false
    ctorDefaultThrows := false }

/-- Video environment fixture in which acquisition resolves an audio-only
stream: `getVideoTracks()` is empty. -/
def noVideoEnv : VideoEnv :=
  { result := Except.ok audioStream1
    hasMediaRecorder := true
    hasIsTypeSupported := true
    supported := fun _ => true
    ctorWithOptionThrows := fun _ => false
    ctorDefaultThrows := false }

/-- Invariant relating the interval ref and the counter: whenever no
interval is set, the counter reads 0.  This holds in every reachable
state because direct ticks happen only while the interval is live and
`stopRecording` clears the interval and the counter together. -/
def IntervalInv (s : SessionState) : Prop :=
  s.recordingInterval = false → s.recordingTime = 0

/-- A state in mid-recording: the result of one successful
`startAudioRecording`. -/
def sBusy : SessionState := (startAudioRecording audioOkEnv initState).1

/-- Photo environment fixture: video ready, native width unavailable
(zero), capture succeeds. -/
def photoEnvOk : PhotoEnv :=
  { refsAvailable := true
    readyState := 4
    videoWidth := 0
    videoHeight := 480
    ctxAvailable := true
    blobOk := true
    frame := [9, 9]
    dataUrl := "data-jpeg"
    now := 77 }

/-- Photo environment fixture: refs present but the preview video has not
reached `HAVE_ENOUGH_DATA`. -/
def photoEnvNotReady : PhotoEnv :=
  { refsAvailable := true
    readyState := 2
    videoWidth := 640
    videoHeight := 480
    ctxAvailable := true
    blobOk := true
    frame := []
    dataUrl := "d"
    now := 5 }

/-- C1 counterexample: a session already holding a live stream (after one
successful `startCamera`) acquires a second device stream when
`startCamera` is invoked again; no track of the first stream is stopped,
so two acquired streams are open at once, refuting the at-most-one-open-
stream claim. -/
theorem C1_counterexample :
    sHolding.mediaStream = some stream1 ∧
    ((startCamera camEnv2 sHolding).2).contains (Effect.acquired stream2)
      = true ∧
    stoppedIds ((startCamera camEnv1 initState).2 ++
      (startCamera camEnv2 sHolding).2) = [] ∧
    openStreamCount ((startCamera camEnv1 initState).2 ++
      (startCamera camEnv2 sHolding).2) = 2 := by
  decide

/-- C1 amended: none of the three start operations guards on the current
state.  Invoking any of them on a session that already holds a live
stream unconditionally acquires a second device stream, overwrites the
held handle with it, and stops no track at all — in particular no track
of the previously held stream, which therefore stays open. -/
theorem C1_start_reacquires (s : SessionState) (st st2 : MediaStream)
    (hs : s.mediaStream = some st) :
    (∀ env : CameraEnv, env.apiSupported = true →
       env.result = Except.ok st2 →
       (startCamera env s).1.mediaStream = some st2 ∧
       acquiredIn (startCamera env s).2 = [st2] ∧
       stoppedIds (startCamera env s).2 = []) ∧
    (∀ env : AudioEnv, env.result = Except.ok st2 →
       (startAudioRecording env s).1.mediaStream = some st2 ∧
       acquiredIn (startAudioRecording env s).2 = [st2] ∧
       stoppedIds (startAudioRecording env s).2 = []) ∧
    (∀ env : VideoEnv, env.result = Except.ok st2 →
       st2.videoTracks ≠ [] →
       (startVideoRecording env s).1.mediaStream = some st2 ∧
       acquiredIn (startVideoRecording env s).2 = [st2] ∧
       stoppedIds (startVideoRecording env s).2 = []) := by
  refine ⟨?_, ?_, ?_⟩
  · intro env h1 h2
    simp [startCamera, h1, h2, acquiredIn, stoppedIds]
  · intro env h2
    by_cases hthrow : env.recorderCtorThrows <;>
      simp [startAudioRecording, h2, hthrow, acquiredIn, stoppedIds]
  · intro env h2 hvt
    have hlen : st2.videoTracks.length ≠ 0 := by
      simpa [List.length_eq_zero] using hvt
    cases hrec : constructRecorder env st2 <;>
      simp [startVideoRecording, h2, hlen, hrec, acquiredIn, stoppedIds]

/-- C1 witness: the amended theorem applied to the concrete
already-holding state and camera environment. -/
theorem C1_start_reacquires_witness :
    (startCamera camEnv2 sHolding).1.mediaStream = some stream2 ∧
    acquiredIn (startCamera camEnv2 sHolding).2 = [stream2] ∧
    stoppedIds (startCamera camEnv2 sHolding).2 = [] :=
  (C1_start_reacquires sHolding stream1 stream2 (by decide)).1 camEnv2
    rfl rfl

/-- C2 evaluation at the failing input: audio acquisition succeeds and
the `MediaRecorder` constructor then throws; the catch block reports the
error while the already-stored stream keeps every track running (no
`trackStopped` effect, one acquired stream still open). -/
theorem C2_evaluation :
    (startAudioRecording audioCtorFailEnv initState).1.mediaStream
      = some audioStream1 ∧
    ((startAudioRecording audioCtorFailEnv initState).2).contains
      (Effect.errorToast ErrKind.micError) = true ∧
    stoppedIds (startAudioRecording audioCtorFailEnv initState).2 = [] ∧
    openStreamCount (startAudioRecording audioCtorFailEnv initState).2
      = 1 ∧
    (startAudioRecording audioCtorFailEnv initState).1.recordingInterval
      = false := by
  decide

/-- C3 counterexample: after starting an audio recording and letting the
interval fire three times the counter reads 3, but one `stopRecording`
immediately resets it to 0 — refuting the claim that stopping does not
reset the counter. -/
theorem C3_counterexample :
    (tick (tick (tick
      (startAudioRecording audioOkEnv initState).1))).recordingTime = 3 ∧
    (stopRecording (tick (tick (tick
      (startAudioRecording audioOkEnv initState).1)))).1.recordingTime
      = 0 := by
  decide

/-- C3 amended: the counter is reset to 0 on every transition into
Recording (both audio and video start), each interval firing adds one, so
three whole seconds of recording read exactly 3; and `stopRecording`
itself immediately resets the counter to 0 (there is no separate session
reset operation). -/
theorem C3_amended (s : SessionState) :
    (∀ env : AudioEnv, ∀ st : MediaStream, env.result = Except.ok st →
       env.recorderCtorThrows = false →
       (startAudioRecording env s).1.recordingTime = 0 ∧
       (startAudioRecording env s).1.recordingInterval = true) ∧
    (∀ env : VideoEnv, ∀ st : MediaStream, env.result = Except.ok st →
       st.videoTracks ≠ [] → env.ctorDefaultThrows = false →
       (startVideoRecording env s).1.recordingTime = 0 ∧
       (startVideoRecording env s).1.recordingInterval = true) ∧
    (∀ s2 : SessionState, s2.recordingInterval = true →
       (tick s2).recordingTime = s2.recordingTime + 1 ∧
       (tick s2).recordingInterval = true) ∧
    (∀ env : AudioEnv, ∀ st : MediaStream, env.result = Except.ok st →
       env.recorderCtorThrows = false →
       (tick (tick (tick
         (startAudioRecording env s).1))).recordingTime = 3) ∧
    (∀ s2 : SessionState, (stopRecording s2).1.recordingTime = 0) := by
  refine ⟨?_, ?_, ?_, ?_, ?_⟩
  · intro env st h1 h2
    simp [startAudioRecording, h1, h2]
  · intro env st h1 hvt h3
    have hlen : st.videoTracks.length ≠ 0 := by
      simpa [List.length_eq_zero] using hvt
    unfold startVideoRecording constructRecorder
    cases hm : getSupportedVideoMimeType env with
    | none => simp [h1, hlen, h3]
    | some m =>
      by_cases ho : env.ctorWithOptionThrows m <;> simp [h1, hlen, h3, ho]
  · intro s2 h
    simp [tick, h]
  · intro env st h1 h2
    simp [startAudioRecording, h1, h2, tick]
  · intro s2
    unfold stopRecording
    cases s2.mediaStream <;> simp

/-- Helper: when the negotiation loop returns a candidate, that candidate
is supported and every earlier candidate in the list is unsupported. -/
theorem findSupported_first (env : VideoEnv) (cs : List String)
    (c : String) (h : findSupportedMimeType env cs = some c) :
    supportedBy env c = true ∧
    ∃ i : Nat, ∃ hi : i < cs.length, cs.get ⟨i, hi⟩ = c ∧
      ∀ j : Nat, ∀ hj : j < cs.length, j < i →
        supportedBy env (cs.get ⟨j, hj⟩) = false := by
  unfold findSupportedMimeType at h
  rw [List.find?_eq_some_iff_getElem] at h
  obtain ⟨hp, i, hi, hget, hprev⟩ := h
  refine ⟨hp, i, hi, by simpa using hget, ?_⟩
  intro j hj hji
  have := hprev j hji
  simpa using this

/-- Helper: the negotiation loop returns `none` exactly when no candidate
is supported. -/
theorem findSupported_none (env : VideoEnv) (cs : List String) :
    findSupportedMimeType env cs = none ↔
      ∀ c ∈ cs, supportedBy env c = false := by
  unfold findSupportedMimeType
  rw [List.find?_eq_none]
  constructor
  · intro h c hc
    simpa using h c hc
  · intro h c hc
    simp [h c hc]

/-- C4: format negotiation returns the first candidate in list order that
the runtime supports and `none` when no candidate is supported; and when
negotiation yields `none`, or construction with the negotiated format
throws, `startVideoRecording` still constructs a default (no-options)
recorder and reaches the recording state instead of failing. -/
theorem C4_negotiation (env : VideoEnv) :
    (∀ cs : List String, ∀ c : String,
       findSupportedMimeType env cs = some c →
       supportedBy env c = true ∧
       ∃ i : Nat, ∃ hi : i < cs.length, cs.get ⟨i, hi⟩ = c ∧
         ∀ j : Nat, ∀ hj : j < cs.length, j < i →
           supportedBy env (cs.get ⟨j, hj⟩) = false) ∧
    (∀ cs : List String, findSupportedMimeType env cs = none ↔
       ∀ c ∈ cs, supportedBy env c = false) ∧
    (∀ s : SessionState, ∀ st : MediaStream,
       env.result = Except.ok st → st.videoTracks ≠ [] →
       env.ctorDefaultThrows = false →
       (getSupportedVideoMimeType env = none ∨
         (∃ m, getSupportedVideoMimeType env = some m ∧
           env.ctorWithOptionThrows m = true)) →
       (startVideoRecording env s).1.isRecording = true ∧
       (startVideoRecording env s).1.mediaRecorder = some (st, none)) := by
  refine ⟨fun cs c h => findSupported_first env cs c h,
          fun cs => findSupported_none env cs, ?_⟩
  intro s st h1 hvt h3 hfall
  have hlen : st.videoTracks.length ≠ 0 := by
    simpa [List.length_eq_zero] using hvt
  have hrec : constructRecorder env st = some (st, none) := by
    unfold constructRecorder
    rcases hfall with hnone | ⟨m, hm, hthrow⟩
    · simp [hnone, h3]
    · simp [hm, hthrow, h3]
  simp [startVideoRecording, h1, hlen, hrec]

/-- C4 witness: with only the third and fourth candidates supported the
negotiation returns the third (`video/webm`); with nothing supported the
session still reaches recording on a default-configured recorder. -/
theorem C4_negotiation_witness :
    supportedBy vidEnvBC "video/webm" = true ∧
    (startVideoRecording vidEnvNone initState).1.isRecording = true ∧
    (startVideoRecording vidEnvNone initState).1.mediaRecorder
      = some (stream1, none) :=
  ⟨((C4_negotiation vidEnvBC).1 videoCandidates "video/webm"
      (by decide)).1,
   (C4_negotiation vidEnvNone).2.2 initState stream1 rfl (by decide) rfl
     (Or.inl (by decide))⟩

/-- C5 counterexample: on an acquired stream with no video track the
effect order is acquisition, then the error toast, then the track stop —
so a `track.stop()` occurs strictly after the error is reported, refuting
the stopped-before-reported ordering. -/
theorem C5_counterexample :
    (startVideoRecording noVideoEnv initState).2 =
      [Effect.acquired audioStream1,
       Effect.errorToast ErrKind.noVideoTrack,
       Effect.trackStopped 51] ∧
    stopsAfterReport (startVideoRecording noVideoEnv initState).2 =
      [Effect.trackStopped 51] := by
  decide

/-- C5 amended: when video acquisition succeeds but the stream has no
video track, the session fails with the no-video-track error and every
track of the acquired stream is stopped before the operation returns —
the stops are issued immediately after the error toast rather than before
it — no encoder is constructed, no recording starts, and the session
state is unchanged. -/
theorem C5_amended (s : SessionState) (env : VideoEnv) (st : MediaStream)
    (hres : env.result = Except.ok st) (hv : st.videoTracks = []) :
    startVideoRecording env s =
      (s, Effect.acquired st :: Effect.errorToast ErrKind.noVideoTrack ::
          st.tracks.map (fun t => Effect.trackStopped t.tid)) ∧
    stoppedIds (startVideoRecording env s).2 = st.tracks.map Track.tid ∧
    streamOpen (startVideoRecording env s).2 st = false ∧
    (startVideoRecording env s).1 = s := by
  have hlen : st.videoTracks.length = 0 := by simp [hv]
  have heq : startVideoRecording env s =
      (s, Effect.acquired st :: Effect.errorToast ErrKind.noVideoTrack ::
          st.tracks.map (fun t => Effect.trackStopped t.tid)) := by
    simp [startVideoRecording, hres, hlen]
  refine ⟨heq, ?_, ?_, by rw [heq]⟩
  · rw [heq]
    simp [stoppedIds, List.filterMap_cons, List.filterMap_map]
    exact List.filterMap_eq_map _ ▸ rfl
  · rw [heq]
    simp [streamOpen, stoppedIds, List.filterMap_cons,
      List.filterMap_map]
    intro t ht
    exact ⟨t, ht, rfl⟩

/-- C5 witness: the amended theorem applied to the concrete audio-only
acquisition. -/
theorem C5_amended_witness :
    startVideoRecording noVideoEnv initState =
      (initState,
       Effect.acquired audioStream1 ::
         Effect.errorToast ErrKind.noVideoTrack ::
         audioStream1.tracks.map (fun t => Effect.trackStopped t.tid)) ∧
    streamOpen (startVideoRecording noVideoEnv initState).2 audioStream1
      = false :=
  ⟨(C5_amended initState noVideoEnv audioStream1 rfl (by decide)).1,
   (C5_amended initState noVideoEnv audioStream1 rfl (by decide)).2.2.1⟩

/-- Helper: the audio data-event fold appends exactly the non-empty
fragments in arrival order. -/
theorem audioChunks_foldl_aux (events : List (List Nat))
    (acc : List (List Nat)) :
    events.foldl pushIfNonEmpty acc =
      acc ++ events.filter (fun d => decide (0 < d.length)) := by
  induction events generalizing acc with
  | nil => simp
  | cons d tl ih =>
    by_cases h : 0 < d.length <;>
      simp [List.foldl_cons, List.filter_cons, pushIfNonEmpty, h, ih]

/-- C7: for every finite sequence of audio data events, exactly the
non-empty fragments are accumulated in arrival order, and the assembled
artifact's bytes are their concatenation, tagged `audio/webm`. -/
theorem C7_audio_concat (events : List (List Nat)) :
    audioChunks events = events.filter (fun d => decide (0 < d.length)) ∧
    (audioArtifact events).bytes =
      (events.filter (fun d => decide (0 < d.length))).flatten ∧
    (audioArtifact events).mime = "audio/webm" := by
  refine ⟨?_, ?_, rfl⟩ <;>
    simp [audioArtifact, audioChunks, audioChunks_foldl_aux]

/-- C6: on a ready preview with a held stream, `capturePhoto` sizes the
frame buffer to the video's native dimensions with 640 by 480 as the
fallback for unavailable (zero) dimensions, produces a file with mime
`image/jpeg` and name `photo-<timestamp>.jpg`, and releases the device
stream (all tracks stopped, reference cleared) immediately after the
capture succeeds. -/
theorem C6_photo (s : SessionState) (st : MediaStream) (env : PhotoEnv)
    (hs : s.mediaStream = some st)
    (href : env.refsAvailable = true)
    (hready : env.readyState = HAVE_ENOUGH_DATA)
    (hctx : env.ctxAvailable = true) (hblob : env.blobOk = true) :
    (capturePhoto env s).1.canvasWidth =
      (if env.videoWidth = 0 then 640 else env.videoWidth) ∧
    (capturePhoto env s).1.canvasHeight =
      (if env.videoHeight = 0 then 480 else env.videoHeight) ∧
    (capturePhoto env s).1.file = some (photoArtifact env.frame env.now) ∧
    (photoArtifact env.frame env.now).mime = "image/jpeg" ∧
    (photoArtifact env.frame env.now).name =
      "photo-" ++ toString env.now ++ ".jpg" ∧
    (capturePhoto env s).1.mediaStream = none ∧
    (capturePhoto env s).2 =
      st.tracks.map (fun t => Effect.trackStopped t.tid) ∧
    (capturePhoto env s).1.showCamera = false := by
  simp [capturePhoto, stopCamera, href, hready, hctx, hblob, hs,
    photoArtifact]

/-- C6 witness: the theorem applied to the concrete holding state and a
ready environment whose native width is unavailable. -/
theorem C6_photo_witness :
    (capturePhoto photoEnvOk sHolding).1.canvasWidth = 640 ∧
    (capturePhoto photoEnvOk sHolding).1.file =
      some (photoArtifact photoEnvOk.frame photoEnvOk.now) ∧
    (capturePhoto photoEnvOk sHolding).1.mediaStream = none ∧
    (capturePhoto photoEnvOk sHolding).2 = [Effect.trackStopped 11] :=
  ⟨((C6_photo sHolding stream1 photoEnvOk (by decide) rfl rfl rfl
      rfl).1).trans (by decide),
   (C6_photo sHolding stream1 photoEnvOk (by decide) rfl rfl rfl
      rfl).2.2.1,
   (C6_photo sHolding stream1 photoEnvOk (by decide) rfl rfl rfl
      rfl).2.2.2.2.2.1,
   ((C6_photo sHolding stream1 photoEnvOk (by decide) rfl rfl rfl
      rfl).2.2.2.2.2.2.1).trans (by decide)⟩

/-- C8 counterexample: the audio artifact's suggested name is the fixed
string `recorded-audio.webm` — it contains no digit at all and does not
change across recordings, so no capture timestamp is encoded in it,
refuting the claim for the audio modality. -/
theorem C8_counterexample :
    (audioArtifact [[1], [2]]).name = "recorded-audio.webm" ∧
    ((audioArtifact [[1], [2]]).name.toList.all fun c => !c.isDigit)
      = true ∧
    (audioArtifact [[1], [2]]).name = (audioArtifact [[3, 4], [5]]).name
      := by
  decide

/-- C8 amended: photo and video artifact names deterministically encode
the modality and the capture timestamp (`photo-<ts>.jpg`,
`recorded-video-<ts>.webm`), while the audio artifact name is the fixed
`recorded-audio.webm`, encoding the modality but no timestamp. -/
theorem C8_amended (frame : List Nat) (now : Nat) (chunks : List Chunk)
    (events : List (List Nat)) :
    (photoArtifact frame now).name = "photo-" ++ toString now ++ ".jpg" ∧
    (videoArtifact chunks now).name =
      "recorded-video-" ++ toString now ++ ".webm" ∧
    (audioArtifact events).name = "recorded-audio.webm" :=
  ⟨rfl, rfl, rfl⟩

/-- Helper: a state whose interval and counter fields agree with another
state inherits the interval invariant from it. -/
theorem intervalInv_of_eq {s s2 : SessionState}
    (h1 : s2.recordingInterval = s.recordingInterval)
    (h2 : s2.recordingTime = s.recordingTime)
    (ih : IntervalInv s) : IntervalInv s2 := by
  intro h
  rw [h2]
  exact ih (h1 ▸ h)

/-- Helper: a state with a live interval satisfies the interval invariant
vacuously. -/
theorem intervalInv_of_true {s2 : SessionState}
    (h1 : s2.recordingInterval = true) : IntervalInv s2 := by
  intro h
  rw [h1] at h
  cases h

/-- Helper: a state with a zero counter satisfies the interval
invariant. -/
theorem intervalInv_of_zero {s2 : SessionState}
    (h2 : s2.recordingTime = 0) : IntervalInv s2 := fun _ => h2

/-- Helper: `stopCamera` leaves the interval ref and the counter
untouched. -/
theorem stopCamera_interval_time (s : SessionState) :
    (stopCamera s).1.recordingInterval = s.recordingInterval ∧
    (stopCamera s).1.recordingTime = s.recordingTime := by
  unfold stopCamera
  cases s.mediaStream <;> simp

/-- Helper: `capturePhoto` leaves the interval ref and the counter
untouched on every branch. -/
theorem capturePhoto_interval_time (env : PhotoEnv) (s : SessionState) :
    (capturePhoto env s).1.recordingInterval = s.recordingInterval ∧
    (capturePhoto env s).1.recordingTime = s.recordingTime := by
  unfold capturePhoto stopCamera
  by_cases h1 : env.refsAvailable <;>
  by_cases h2 : env.readyState = HAVE_ENOUGH_DATA <;>
  by_cases h3 : env.ctxAvailable <;>
  by_cases h4 : env.blobOk <;>
  cases hm : s.mediaStream <;>
  simp [h1, h2, h3, h4, hm]

/-- Helper: after `stopRecording` the session is not recording, holds no
stream, has no interval, and the counter reads 0, whatever the input
state. -/
theorem stopRecording_fields (s : SessionState) :
    (stopRecording s).1.isRecording = false ∧
    (stopRecording s).1.mediaStream = none ∧
    (stopRecording s).1.recordingInterval = false ∧
    (stopRecording s).1.recordingTime = 0 := by
  unfold stopRecording
  cases hm : s.mediaStream <;> by_cases hi : s.recordingInterval <;>
    simp [hm, hi]

/-- Helper: every operation preserves the interval invariant. -/
theorem applyOp_intervalInv (o : Op) (s : SessionState)
    (ih : IntervalInv s) : IntervalInv (applyOp o s).1 := by
  cases o with
  | opStartCamera env =>
    show IntervalInv (startCamera env s).1
    unfold startCamera
    by_cases ha : env.apiSupported
    · rcases henv : env.result with e | st
      · simpa [ha, henv] using ih
      · simp only [ha, Bool.not_true, Bool.false_eq_true, if_false, henv]
        exact intervalInv_of_eq rfl rfl ih
    · simpa [ha] using ih
  | opCapturePhoto env =>
    show IntervalInv (capturePhoto env s).1
    exact intervalInv_of_eq (capturePhoto_interval_time env s).1
      (capturePhoto_interval_time env s).2 ih
  | opStopCamera =>
    show IntervalInv (stopCamera s).1
    exact intervalInv_of_eq (stopCamera_interval_time s).1
      (stopCamera_interval_time s).2 ih
  | opStartAudio env =>
    show IntervalInv (startAudioRecording env s).1
    unfold startAudioRecording
    rcases henv : env.result with e | st
    · simpa [henv] using ih
    · by_cases hc : env.recorderCtorThrows
      · simp only [henv, hc, if_true]
        exact intervalInv_of_eq rfl rfl ih
      · simp only [henv, hc, Bool.false_eq_true, if_false]
        exact intervalInv_of_true rfl
  | opStartVideo env =>
    show IntervalInv (startVideoRecording env s).1
    unfold startVideoRecording
    rcases henv : env.result with e | st
    · simpa [henv] using ih
    · by_cases hlen : st.videoTracks.length = 0
      · simpa [henv, hlen] using ih
      · rcases hrec : constructRecorder env st with _ | r
        · simp only [henv, hlen, if_false, hrec]
          exact intervalInv_of_eq rfl rfl ih
        · simp only [henv, hlen, if_false, hrec]
          exact intervalInv_of_true rfl
  | opStopRecording =>
    show IntervalInv (stopRecording s).1
    exact intervalInv_of_zero (stopRecording_fields s).2.2.2
  | opTick =>
    show IntervalInv (tick s)
    unfold tick
    by_cases ht : s.recordingInterval
    · simp only [ht, if_true]
      exact intervalInv_of_true rfl
    · simpa [ht] using ih
  | opAudioStop events =>
    show IntervalInv (audioStopEvent events s)
    unfold audioStopEvent
    by_cases hm : s.mediaRecorder.isSome
    · simp only [hm, if_true]
      exact intervalInv_of_eq rfl rfl ih
    · simpa [hm] using ih
  | opVideoStop chunks now =>
    show IntervalInv (videoStopEvent chunks now s).1
    unfold videoStopEvent
    by_cases hm : s.mediaRecorder.isSome
    · simp only [hm, if_true]
      exact intervalInv_of_eq
        ((stopCamera_interval_time _).1.trans rfl)
        ((stopCamera_interval_time _).2.trans rfl) ih
    · simpa [hm] using ih

/-- Helper: every reachable state satisfies the interval invariant. -/
theorem reachable_intervalInv {s : SessionState} (h : Reachable s) :
    IntervalInv s := by
  induction h with
  | init => exact fun _ => rfl
  | step o hs ih => exact applyOp_intervalInv o _ ih

/-- Helper: on a state that is not recording, holds no stream, has no
interval, and whose counter already reads 0, `stopRecording` returns the
state unchanged and performs no release effect. -/
theorem stopRecording_clean (s : SessionState)
    (h1 : s.isRecording = false) (h2 : s.mediaStream = none)
    (h3 : s.recordingInterval = false) (h4 : s.recordingTime = 0) :
    stopRecording s = (s, []) := by
  unfold stopRecording
  cases s
  simp_all

/-- C9: on every reachable session state that is not recording and holds
neither a stream nor a timer, `stopRecording` is a no-op — the state is
unchanged and no release effect is emitted (the model is total, so no
exception is possible) — and on every state whatsoever a second
consecutive `stopRecording` changes nothing and releases nothing, so
stop composed with stop equals stop. -/
theorem C9_stop_idempotent (s : SessionState) (hr : Reachable s)
    (hrec : s.isRecording = false) (hstream : s.mediaStream = none)
    (hint : s.recordingInterval = false) :
    stopRecording s = (s, []) ∧
    (∀ s2 : SessionState,
      stopRecording (stopRecording s2).1 = ((stopRecording s2).1, [])) := by
  refine ⟨stopRecording_clean s hrec hstream hint
    (reachable_intervalInv hr hint), ?_⟩
  intro s2
  obtain ⟨f1, f2, f3, f4⟩ := stopRecording_fields s2
  exact stopRecording_clean _ f1 f2 f3 f4

/-- C9 witness: the theorem applied to the initial state (reachable by
definition) and, for the idempotence part, to a concrete mid-recording
state. -/
theorem C9_stop_idempotent_witness :
    stopRecording initState = (initState, []) ∧
    stopRecording (stopRecording sBusy).1 = ((stopRecording sBusy).1, []) :=
  ⟨(C9_stop_idempotent initState Reachable.init rfl rfl rfl).1,
   (C9_stop_idempotent initState Reachable.init rfl rfl rfl).2 sBusy⟩

/-- C10: invoking `capturePhoto` while the preview video has not reached
`HAVE_ENOUGH_DATA` only emits the not-ready error toast: the state is
returned unchanged (stream still held, camera view still shown, no file
produced) and no track is stopped, and a subsequent `capturePhoto` on the
same state with a ready environment succeeds and produces the photo
artifact. -/
theorem C10_not_ready (s : SessionState) (env env2 : PhotoEnv)
    (href : env.refsAvailable = true)
    (hnr : env.readyState ≠ HAVE_ENOUGH_DATA) :
    capturePhoto env s = (s, [Effect.errorToast ErrKind.notReady]) ∧
    (env2.refsAvailable = true → env2.readyState = HAVE_ENOUGH_DATA →
     env2.ctxAvailable = true → env2.blobOk = true →
     (capturePhoto env2 (capturePhoto env s).1).1.file =
       some (photoArtifact env2.frame env2.now)) := by
  have h1 : capturePhoto env s =
      (s, [Effect.errorToast ErrKind.notReady]) := by
    simp [capturePhoto, href, hnr]
  refine ⟨h1, ?_⟩
  intro k1 k2 k3 k4
  rw [h1]
  cases hm : s.mediaStream <;>
    simp [capturePhoto, stopCamera, k1, k2, k3, k4, hm]

/-- C10 witness: the theorem applied to the concrete holding state, a
not-ready environment, and a ready retry environment. -/
theorem C10_not_ready_witness :
    capturePhoto photoEnvNotReady sHolding =
      (sHolding, [Effect.errorToast ErrKind.notReady]) ∧
    (capturePhoto photoEnvOk
        (capturePhoto photoEnvNotReady sHolding).1).1.file =
      some (photoArtifact photoEnvOk.frame photoEnvOk.now) :=
  ⟨(C10_not_ready sHolding photoEnvNotReady photoEnvOk rfl
      (by decide)).1,
   (C10_not_ready sHolding photoEnvNotReady photoEnvOk rfl
      (by decide)).2 rfl rfl rfl rfl⟩

/-- C3 amended witness: the amended-timer theorem applied to the concrete
audio environment and the concrete mid-recording state. -/
theorem C3_amended_witness :
    (startAudioRecording audioOkEnv initState).1.recordingTime = 0 ∧
    (tick (tick (tick
      (startAudioRecording audioOkEnv initState).1))).recordingTime = 3 ∧
    (stopRecording sBusy).1.recordingTime = 0 :=
  ⟨((C3_amended initState).1 audioOkEnv audioStream1 rfl rfl).1,
   (C3_amended initState).2.2.2.1 audioOkEnv audioStream1 rfl rfl,
   (C3_amended initState).2.2.2.2 sBusy⟩
